import Mathlib

/-!
Shallow embedding of the investment-analysis core of the Notsoup repository
(src/App.py and src/3App.py), together with theorems settling the frozen
claims about its specification.

Conventions of the embedding:
* Python floats are modelled as exact rationals (ℚ); the two real-valued
  quantities the code derives with `sqrt`/fractional powers are modelled in ℝ
  on top of the rational core.
* A Python dict with possibly-missing keys is a structure of `Option` fields;
  `d.get(k)` is the `Option`, `d.get(k, v)` is `Option.getD v`.
* Python truthiness of a number is `≠ 0`; of an optional value, `≠ none`.
* Fallible code is `Except`: the `{"error": ...}` dicts the source returns
  become `Except.error` values, and a raised `ZeroDivisionError` (Python `/`
  or `**` hitting a zero denominator) becomes `Except.error .divisionByZero`.
* ISO date strings are modelled by a day number (ℤ); a date that is absent,
  empty, or unparseable where the code skips the point is `none`.
-/

namespace Notsoup

/-- The fields of a property dict (`property_data` / a comparable) that the
analysis functions of src/App.py read.  Every field may be missing. -/
structure PropertyData where
  lastSalePrice : Option ℚ := none
  price : Option ℚ := none
  lastSaleDate : Option ℤ := none
  squareFootage : Option ℚ := none
  yearBuilt : Option ℤ := none
  propertyType : Option String := none
deriving DecidableEq

/-- `property_data.get("lastSalePrice") or property_data.get("price", 0)`
(src/App.py line 756): Python `or` falls through on a falsy (absent or zero)
first operand. -/
def resolvedPurchasePrice (pd : PropertyData) : ℚ :=
  match pd.lastSalePrice with
  | some p => if p = 0 then pd.price.getD 0 else p
  | none => pd.price.getD 0

/-- Failures of the metric computations: the returned
`{"error": "No purchase price available"}` dict, and a raised
`ZeroDivisionError`. -/
inductive MetricsError where
  | noPurchasePrice
  | divisionByZero
deriving DecidableEq

/-- The result dict of `PropertyAnalyzer.calculate_investment_metrics`
(src/App.py lines 796-813). -/
structure InvestmentMetrics where
  purchase_price : ℚ
  down_payment : ℚ
  loan_amount : ℚ
  monthly_payment : ℚ
  monthly_rental : ℚ
  monthly_cash_flow : ℚ
  annual_cash_flow : ℚ
  cash_on_cash_return : ℚ
  cap_rate : ℚ
  one_percent_rule : ℚ
  total_monthly_expenses : ℚ
  property_tax_monthly : ℚ
  insurance_monthly : ℚ
  maintenance_monthly : ℚ
  vacancy_allowance : ℚ
  property_mgmt : ℚ
deriving DecidableEq

/-- The amortized monthly payment, shared verbatim by src/App.py lines 765-771
and src/3App.py lines 699-705:
`loan * (r * (1+r)^n) / ((1+r)^n - 1)` when the monthly rate `r` is positive,
`loan / n` otherwise.  A zero denominator (term = 0) raises in Python and is
an explicit `divisionByZero` here. -/
def monthlyMortgagePayment (loan_amount monthly_rate : ℚ) (num_payments : ℤ) :
    Except MetricsError ℚ :=
  if monthly_rate > 0 then
    if (1 + monthly_rate) ^ num_payments - 1 = 0 then Except.error MetricsError.divisionByZero
    else Except.ok (loan_amount * (monthly_rate * (1 + monthly_rate) ^ num_payments) /
      ((1 + monthly_rate) ^ num_payments - 1))
  else
    if num_payments = 0 then Except.error MetricsError.divisionByZero
    else Except.ok (loan_amount / (num_payments : ℚ))

/-- `PropertyAnalyzer.calculate_investment_metrics` (src/App.py lines 750-813).
The source defaults are down payment 20 percent, rate 6.5, term 30 years; the
embedding takes them explicitly. -/
def calculate_investment_metrics (property_data : PropertyData) (rental_estimate : ℚ)
    (down_payment_percent : ℚ) (interest_rate : ℚ) (loan_term_years : ℤ) :
    Except MetricsError InvestmentMetrics :=
  let purchase_price := resolvedPurchasePrice property_data
  if purchase_price = 0 then Except.error MetricsError.noPurchasePrice
  else
    let down_payment := purchase_price * (down_payment_percent / 100)
    let loan_amount := purchase_price - down_payment
    let monthly_rate := interest_rate / 100 / 12
    let num_payments : ℤ := loan_term_years * 12
    (monthlyMortgagePayment loan_amount monthly_rate num_payments).bind fun monthly_payment =>
      let property_tax_monthly := (purchase_price * (12 / 1000)) / 12
      let insurance_monthly := (purchase_price * (3 / 1000)) / 12
      let maintenance_monthly := rental_estimate * (5 / 100)
      let vacancy_allowance := rental_estimate * (8 / 100)
      let property_mgmt := rental_estimate * (10 / 100)
      let total_monthly_expenses := monthly_payment + property_tax_monthly +
        insurance_monthly + maintenance_monthly + vacancy_allowance + property_mgmt
      let monthly_cash_flow := rental_estimate - total_monthly_expenses
      let annual_cash_flow := monthly_cash_flow * 12
      let cash_on_cash_return :=
        if down_payment > 0 then (annual_cash_flow / down_payment) * 100 else 0
      let cap_rate := ((rental_estimate * 12) / purchase_price) * 100
      let one_percent_rule := (rental_estimate / purchase_price) * 100
      Except.ok
        { purchase_price := purchase_price
          down_payment := down_payment
          loan_amount := loan_amount
          monthly_payment := monthly_payment
          monthly_rental := rental_estimate
          monthly_cash_flow := monthly_cash_flow
          annual_cash_flow := annual_cash_flow
          cash_on_cash_return := cash_on_cash_return
          cap_rate := cap_rate
          one_percent_rule := one_percent_rule
          total_monthly_expenses := total_monthly_expenses
          property_tax_monthly := property_tax_monthly
          insurance_monthly := insurance_monthly
          maintenance_monthly := maintenance_monthly
          vacancy_allowance := vacancy_allowance
          property_mgmt := property_mgmt }

/-- The dict returned by `display_investment_calculator` (src/3App.py
lines 745-751). -/
structure CalcResult where
  monthly_cash_flow : ℚ
  cap_rate : ℚ
  cash_on_cash_return : ℚ
  purchase_price : ℚ
  down_payment : ℚ
deriving DecidableEq

/-- The calculation block of `display_investment_calculator` (src/3App.py
lines 693-751), with the form inputs as arguments.  `cap_rate` divides by
`purchase_price`, which raises in Python when the price is 0. -/
def display_investment_calculator (purchase_price down_payment_pct interest_rate : ℚ)
    (loan_term : ℤ) (monthly_rent vacancy_rate monthly_expenses : ℚ) :
    Except MetricsError CalcResult :=
  let down_payment := purchase_price * (down_payment_pct / 100)
  let loan_amount := purchase_price - down_payment
  let monthly_rate := interest_rate / 100 / 12
  let num_payments : ℤ := loan_term * 12
  (monthlyMortgagePayment loan_amount monthly_rate num_payments).bind fun monthly_mortgage =>
    let effective_rent := monthly_rent * (1 - vacancy_rate / 100)
    let total_expenses := monthly_mortgage + monthly_expenses
    let monthly_cash_flow := effective_rent - total_expenses
    let annual_cash_flow := monthly_cash_flow * 12
    if purchase_price = 0 then Except.error MetricsError.divisionByZero
    else
      let cap_rate := (annual_cash_flow + monthly_mortgage * 12) / purchase_price * 100
      let cash_on_cash_return :=
        if down_payment > 0 then annual_cash_flow / down_payment * 100 else 0
      Except.ok
        { monthly_cash_flow := monthly_cash_flow
          cap_rate := cap_rate
          cash_on_cash_return := cash_on_cash_return
          purchase_price := purchase_price
          down_payment := down_payment }

/-- The cap rate of `calculate_investment_metrics`, 0 on a failure. -/
def metricsCapRate (r : Except MetricsError InvestmentMetrics) : ℚ :=
  match r with
  | Except.ok m => m.cap_rate
  | Except.error _ => 0

/-- The monthly payment of `calculate_investment_metrics`, 0 on a failure. -/
def metricsMonthlyPayment (r : Except MetricsError InvestmentMetrics) : ℚ :=
  match r with
  | Except.ok m => m.monthly_payment
  | Except.error _ => 0

/-- Whether an `Except` result is a success. -/
def exceptIsOk {ε α : Type} (r : Except ε α) : Bool :=
  match r with
  | Except.ok _ => true
  | Except.error _ => false

/-- Modelled from the spec (section 4.3): the cap rate the specification
prescribes, (annual NOI / purchase price) × 100 where NOI is operating income
minus operating expenses and excludes the mortgage payment.  The operating
expense lines are the ones `calculate_investment_metrics` itself budgets
(tax 1.2 percent of price per year, insurance 0.3 percent per year,
maintenance 5 percent of rent, vacancy 8 percent, management 10 percent). -/
def spec_cap_rate (purchase_price rental : ℚ) : ℚ :=
  let operating_expenses_monthly := (purchase_price * (12 / 1000)) / 12 +
    (purchase_price * (3 / 1000)) / 12 + rental * (5 / 100) + rental * (8 / 100) +
    rental * (10 / 100)
  let noi := (rental - operating_expenses_monthly) * 12
  (noi / purchase_price) * 100

/-- Arithmetic mean (`np.mean`); 0 on the empty list, which the source never
hits because every call is guarded by a non-emptiness check. -/
def meanQ (l : List ℚ) : ℚ := l.sum / l.length

/-- Stable ascending insertion keyed on a rational. -/
def insertQ (x : ℚ) : List ℚ → List ℚ
  | [] => [x]
  | y :: ys => if y ≤ x then y :: insertQ x ys else x :: y :: ys

/-- Stable ascending sort of rationals (the sort inside `np.median`). -/
def sortQ (l : List ℚ) : List ℚ := l.foldl (fun acc x => insertQ x acc) []

/-- `np.median`: middle element of the sorted list, or the mean of the two
middle elements when the length is even. -/
def medianQ (l : List ℚ) : ℚ :=
  let s := sortQ l
  if l.length % 2 = 1 then s.getD (l.length / 2) 0
  else (s.getD (l.length / 2 - 1) 0 + s.getD (l.length / 2) 0) / 2

/-- Population variance, the square of `np.std` (ddof = 0). -/
def varianceQ (l : List ℚ) : ℚ := meanQ (l.map fun x => (x - meanQ l) ^ 2)

/-- `np.std`: square root of the population variance. -/
noncomputable def stdQ (l : List ℚ) : ℝ := Real.sqrt (varianceQ l)

/-- Python `min` of a nonempty list; 0 on the empty list (unreached). -/
def listMin (l : List ℚ) : ℚ :=
  match l with
  | [] => 0
  | x :: xs => xs.foldl min x

/-- Python `max` of a nonempty list; 0 on the empty list (unreached). -/
def listMax (l : List ℚ) : ℚ :=
  match l with
  | [] => 0
  | x :: xs => xs.foldl max x

/-- `pd.Series(types).value_counts().to_dict()`: each distinct value with its
number of occurrences.  The dict is modelled as an association list; the
display order of `value_counts` is immaterial to the dict contents. -/
def typeCounts (types : List String) : List (String × ℕ) :=
  types.dedup.map fun t => (t, types.count t)

/-- Failures of `analyze_neighborhood_trends`: the
`{"error": "No comparable properties available"}` and
`{"error": "No price data available"}` dicts. -/
inductive TrendsError where
  | noComparables
  | noPriceData
deriving DecidableEq

/-- The result dict of `PropertyAnalyzer.analyze_neighborhood_trends`
(src/App.py lines 858-869). -/
structure NeighborhoodStats where
  total_properties : ℕ
  avg_price : ℚ
  median_price : ℚ
  price_std : ℝ
  min_price : ℚ
  max_price : ℚ
  avg_price_per_sqft : ℚ
  property_type_distribution : List (String × ℕ)
  price_range : ℚ
  coefficient_of_variation : ℝ

/-- The sale prices `analyze_neighborhood_trends` collects (src/App.py
lines 826-834): one entry per comparable whose `lastSalePrice` and
`lastSaleDate` are both truthy.  The sale years are also collected there but
never used in the result. -/
def trendPrices (comparable_properties : List PropertyData) : List ℚ :=
  comparable_properties.filterMap fun prop =>
    match prop.lastSalePrice, prop.lastSaleDate with
    | some p, some _ => if p = 0 then none else some p
    | _, _ => none

/-- The property types collected alongside `trendPrices`, with the
`"Unknown"` default (src/App.py line 834). -/
def trendTypes (comparable_properties : List PropertyData) : List String :=
  comparable_properties.filterMap fun prop =>
    match prop.lastSalePrice, prop.lastSaleDate with
    | some p, some _ => if p = 0 then none else some (prop.propertyType.getD "Unknown")
    | _, _ => none

/-- The price-per-square-foot samples (src/App.py lines 847-851): comparables
with truthy `lastSalePrice` and truthy, positive `squareFootage`. -/
def trendPricePerSqft (comparable_properties : List PropertyData) : List ℚ :=
  comparable_properties.filterMap fun prop =>
    match prop.lastSalePrice, prop.squareFootage with
    | some p, some s => if p = 0 ∨ s = 0 then none else if s > 0 then some (p / s) else none
    | _, _ => none

/-- `PropertyAnalyzer.analyze_neighborhood_trends` (src/App.py
lines 815-869). -/
noncomputable def analyze_neighborhood_trends (comparable_properties : List PropertyData) :
    Except TrendsError NeighborhoodStats :=
  if comparable_properties = [] then Except.error TrendsError.noComparables
  else
    let prices := trendPrices comparable_properties
    if prices = [] then Except.error TrendsError.noPriceData
    else
      let avg_price := meanQ prices
      let price_per_sqft := trendPricePerSqft comparable_properties
      Except.ok
        { total_properties := comparable_properties.length
          avg_price := avg_price
          median_price := medianQ prices
          price_std := stdQ prices
          min_price := listMin prices
          max_price := listMax prices
          avg_price_per_sqft := if price_per_sqft = [] then 0 else meanQ price_per_sqft
          property_type_distribution := typeCounts (trendTypes comparable_properties)
          price_range := listMax prices - listMin prices
          coefficient_of_variation :=
            if avg_price > 0 then (stdQ prices / (avg_price : ℝ)) * 100 else 0 }

/-- One entry of the `historical_data` list fed to
`calculate_appreciation_forecast`: a price and a date.  `date = none` stands
for an absent, empty, or unparseable date string, all of which make the code
skip the point. -/
structure PricePoint where
  date : Option ℤ := none
  price : Option ℚ := none
deriving DecidableEq

/-- Failures of `calculate_appreciation_forecast`: the
`"Insufficient historical data"`, `"Insufficient valid price data"` and
`"Invalid date range"` error dicts. -/
inductive ForecastError where
  | insufficientHistory
  | insufficientValidData
  | invalidDateRange
deriving DecidableEq

/-- The valid (date, price) pairs extracted from the historical data
(src/App.py lines 878-885): points with truthy price and a parseable date. -/
def validPricePoints (historical_data : List PricePoint) : List (ℤ × ℚ) :=
  historical_data.filterMap fun d =>
    match d.price, d.date with
    | some p, some t => if p = 0 then none else some (t, p)
    | _, _ => none

/-- Stable ascending insertion keyed on the date component. -/
def insertByDate (x : ℤ × ℚ) : List (ℤ × ℚ) → List (ℤ × ℚ)
  | [] => [x]
  | y :: ys => if y.1 ≤ x.1 then y :: insertByDate x ys else x :: y :: ys

/-- `price_data.sort(key=lambda x: x[0])` (src/App.py line 891): stable
ascending sort by date. -/
def sortByDate (l : List (ℤ × ℚ)) : List (ℤ × ℚ) := l.foldl (fun acc x => insertByDate x acc) []

/-- One row of the forecast list (src/App.py lines 909-913). -/
structure ForecastEntry where
  year : ℕ
  projected_value : ℝ
  projected_gain : ℝ

/-- The result dict of `calculate_appreciation_forecast` (src/App.py
lines 915-920). -/
structure AppreciationForecast where
  annual_appreciation_rate : ℝ
  current_value : ℚ
  forecasts : List ForecastEntry
  total_projected_gain : ℝ

/-- The part of `calculate_appreciation_forecast` downstream of the sort
(src/App.py lines 894-920), which reads nothing but the first and last sorted
points and the horizon: elapsed years, CAGR, and the per-year projections. -/
noncomputable def forecastOfEndpoints (first last : ℤ × ℚ) (years_ahead : ℕ) :
    Except ForecastError AppreciationForecast :=
  let years_elapsed : ℚ := ((last.1 - first.1 : ℤ) : ℚ) / (1461 / 4)
  if years_elapsed ≤ 0 then Except.error ForecastError.invalidDateRange
  else
    let annual_appreciation : ℝ :=
      (((last.2 : ℝ) / (first.2 : ℝ)) ^ ((1 : ℝ) / (years_elapsed : ℝ)) - 1) * 100
    let current_value := last.2
    let forecasts := (List.range years_ahead).map fun i =>
      { year := i + 1
        projected_value := (current_value : ℝ) * ((1 + annual_appreciation / 100) ^ (i + 1))
        projected_gain := (current_value : ℝ) * ((1 + annual_appreciation / 100) ^ (i + 1)) -
          (current_value : ℝ) : ForecastEntry }
    Except.ok
      { annual_appreciation_rate := annual_appreciation
        current_value := current_value
        forecasts := forecasts
        total_projected_gain := ((forecasts.getLast?).map ForecastEntry.projected_gain).getD 0 }

/-- `PropertyAnalyzer.calculate_appreciation_forecast` (src/App.py
lines 871-920): keep the valid points, sort them by date, and forecast from
the first and last sorted points. -/
noncomputable def calculate_appreciation_forecast (historical_data : List PricePoint)
    (years_ahead : ℕ) : Except ForecastError AppreciationForecast :=
  if historical_data.length < 2 then Except.error ForecastError.insufficientHistory
  else if (validPricePoints historical_data).length < 2 then
    Except.error ForecastError.insufficientValidData
  else
    forecastOfEndpoints ((sortByDate (validPricePoints historical_data)).headD (0, 0))
      ((sortByDate (validPricePoints historical_data)).getLastD (0, 0)) years_ahead

/-- The sub-score dict of `calculate_property_score` (src/App.py
lines 1950-2018): the five named sub-scores. -/
structure PropertyScore where
  location_liquidity : ℚ
  property_age : ℚ
  property_size : ℚ
  price_competitiveness : ℚ
  property_condition : ℚ
deriving DecidableEq

/-- The `"Location Liquidity"` sub-score (src/App.py lines 1954-1960). -/
def locationLiquidityScore (comparable_properties : List PropertyData) : ℚ :=
  if comparable_properties.length ≥ 10 then 9
  else if comparable_properties.length ≥ 5 then 7
  else 5

/-- The `"Property Age"` sub-score (src/App.py lines 1962-1977).  The source
reads `datetime.now().year`; the embedding passes that ambient value in as
`current_year`. -/
def propertyAgeScore (property_data : PropertyData) (current_year : ℤ) : ℚ :=
  match property_data.yearBuilt with
  | some yb =>
    if yb = 0 then 5
    else
      let property_age := current_year - yb
      if property_age < 10 then 9
      else if property_age < 20 then 8
      else if property_age < 30 then 7
      else if property_age < 50 then 6
      else 4
  | none => 5

/-- The `"Property Size"` sub-score (src/App.py lines 1979-1988). -/
def propertySizeScore (property_data : PropertyData) : ℚ :=
  let sqft := property_data.squareFootage.getD 0
  if sqft ≥ 2000 then 8
  else if sqft ≥ 1500 then 7
  else if sqft ≥ 1000 then 6
  else 5

/-- The `"Price Competitiveness"` sub-score (src/App.py lines 1990-2010):
ratio of the target price to the mean truthy comparable price, bucketed. -/
def priceCompetitivenessScore (property_data : PropertyData)
    (comparable_properties : List PropertyData) : ℚ :=
  if comparable_properties ≠ [] then
    let target_price := property_data.lastSalePrice.getD 0
    let comp_prices := comparable_properties.filterMap fun p =>
      match p.lastSalePrice with
      | some q => if q = 0 then none else some q
      | none => none
    if comp_prices ≠ [] ∧ target_price > 0 then
      let price_ratio := target_price / meanQ comp_prices
      if price_ratio < 9 / 10 then 9
      else if price_ratio < 1 then 8
      else if price_ratio < 11 / 10 then 7
      else 5
    else 6
  else 6

/-- The `"Property Condition"` sub-score (src/App.py lines 2012-2016): 8 when
the year built is truthy and after 2000, else 6 (0 is not after 2000, so the
truthiness test folds into the comparison). -/
def propertyConditionScore (property_data : PropertyData) : ℚ :=
  if property_data.yearBuilt.getD 0 > 2000 then 8 else 6

/-- `calculate_property_score` (src/App.py lines 1950-2018), with the ambient
`datetime.now().year` passed in as `current_year`. -/
def calculate_property_score (property_data : PropertyData)
    (comparable_properties : List PropertyData) (current_year : ℤ) : PropertyScore :=
  { location_liquidity := locationLiquidityScore comparable_properties
    property_age := propertyAgeScore property_data current_year
    property_size := propertySizeScore property_data
    price_competitiveness := priceCompetitivenessScore property_data comparable_properties
    property_condition := propertyConditionScore property_data }

/-- The total score: sum of the five sub-scores (`sum(scores.values())`, as
the rendering code totals it). -/
def totalScore (s : PropertyScore) : ℚ :=
  s.location_liquidity + s.property_age + s.property_size + s.price_competitiveness +
    s.property_condition

/-- Example property dict with a 100000 sale price, used by concrete
instantiations below. -/
def pd100k : PropertyData := { lastSalePrice := some 100000 }

/-- Example property dict with a 300000 sale price (the C2 scenario). -/
def pd300k : PropertyData := { lastSalePrice := some 300000 }

/-- Example property dict with every field absent. -/
def pdEmpty : PropertyData := {}

/-- Example property dict with a sale price of 100. -/
def pd100 : PropertyData := { lastSalePrice := some 100 }

/-- Example property dict built in 2020. -/
def pdBuilt2020 : PropertyData := { yearBuilt := some 2020 }

/-- A comparable whose sale price and sale date are both absent. -/
def compNoData : PropertyData := {}

/-- A concrete successful metrics record: price 100, rent 0, zero down
payment, zero rate, one-year term. -/
def mZeroDown : InvestmentMetrics :=
  { purchase_price := 100
    down_payment := 0
    loan_amount := 100
    monthly_payment := 25 / 3
    monthly_rental := 0
    monthly_cash_flow := -203 / 24
    annual_cash_flow := -203 / 2
    cash_on_cash_return := 0
    cap_rate := 0
    one_percent_rule := 0
    total_monthly_expenses := 203 / 24
    property_tax_monthly := 1 / 10
    insurance_monthly := 1 / 40
    maintenance_monthly := 0
    vacancy_allowance := 0
    property_mgmt := 0 }

/-- The metrics record for price 100000, rent 1000, 20 percent down, rate 0,
term 30. -/
def mGross : InvestmentMetrics :=
  { purchase_price := 100000
    down_payment := 20000
    loan_amount := 80000
    monthly_payment := 2000 / 9
    monthly_rental := 1000
    monthly_cash_flow := 3805 / 9
    annual_cash_flow := 15220 / 3
    cash_on_cash_return := 761 / 30
    cap_rate := 12
    one_percent_rule := 1
    total_monthly_expenses := 5195 / 9
    property_tax_monthly := 100
    insurance_monthly := 25
    maintenance_monthly := 50
    vacancy_allowance := 80
    property_mgmt := 100 }

/-- The calculator dict for price 100000, 20 percent down, rate 0, term 30,
rent 1000, vacancy 10, monthly expenses 200. -/
def cNoi : CalcResult :=
  { monthly_cash_flow := 4300 / 9
    cap_rate := 42 / 5
    cash_on_cash_return := 86 / 3
    purchase_price := 100000
    down_payment := 20000 }

/-- Three-point price history: (day 0, 100), (day 500, 150), (day 1827, 200). -/
def historyThree : List PricePoint :=
  [{ date := some 0, price := some 100 }, { date := some 500, price := some 150 },
    { date := some 1827, price := some 200 }]

/-- The same history with the interior point removed. -/
def historyTwo : List PricePoint :=
  [{ date := some 0, price := some 100 }, { date := some 1827, price := some 200 }]

/-- A successful `monthlyMortgagePayment` at zero rate is straight-line. -/
theorem monthlyMortgagePayment_zero_rate (loan_amount : ℚ) (n : ℤ) (hn : n ≠ 0) :
    monthlyMortgagePayment loan_amount 0 n = Except.ok (loan_amount / (n : ℚ)) := by
  simp [monthlyMortgagePayment, hn]

/-- Any successful result of `calculate_investment_metrics` is the record built
from its inputs and the computed monthly payment. -/
theorem calculate_investment_metrics_ok (pd : PropertyData) (rental dp rate : ℚ) (term : ℤ)
    (m : InvestmentMetrics)
    (h : calculate_investment_metrics pd rental dp rate term = Except.ok m) :
    ∃ mp, monthlyMortgagePayment
        (resolvedPurchasePrice pd - resolvedPurchasePrice pd * (dp / 100))
        (rate / 100 / 12) (term * 12) = Except.ok mp ∧
      m = { purchase_price := resolvedPurchasePrice pd
            down_payment := resolvedPurchasePrice pd * (dp / 100)
            loan_amount := resolvedPurchasePrice pd - resolvedPurchasePrice pd * (dp / 100)
            monthly_payment := mp
            monthly_rental := rental
            monthly_cash_flow := rental - (mp + (resolvedPurchasePrice pd * (12 / 1000)) / 12 +
              (resolvedPurchasePrice pd * (3 / 1000)) / 12 + rental * (5 / 100) +
              rental * (8 / 100) + rental * (10 / 100))
            annual_cash_flow := (rental - (mp + (resolvedPurchasePrice pd * (12 / 1000)) / 12 +
              (resolvedPurchasePrice pd * (3 / 1000)) / 12 + rental * (5 / 100) +
              rental * (8 / 100) + rental * (10 / 100))) * 12
            cash_on_cash_return := if resolvedPurchasePrice pd * (dp / 100) > 0 then
              ((rental - (mp + (resolvedPurchasePrice pd * (12 / 1000)) / 12 +
                (resolvedPurchasePrice pd * (3 / 1000)) / 12 + rental * (5 / 100) +
                rental * (8 / 100) + rental * (10 / 100))) * 12 /
                (resolvedPurchasePrice pd * (dp / 100))) * 100 else 0
            cap_rate := ((rental * 12) / resolvedPurchasePrice pd) * 100
            one_percent_rule := (rental / resolvedPurchasePrice pd) * 100
            total_monthly_expenses := mp + (resolvedPurchasePrice pd * (12 / 1000)) / 12 +
              (resolvedPurchasePrice pd * (3 / 1000)) / 12 + rental * (5 / 100) +
              rental * (8 / 100) + rental * (10 / 100)
            property_tax_monthly := (resolvedPurchasePrice pd * (12 / 1000)) / 12
            insurance_monthly := (resolvedPurchasePrice pd * (3 / 1000)) / 12
            maintenance_monthly := rental * (5 / 100)
            vacancy_allowance := rental * (8 / 100)
            property_mgmt := rental * (10 / 100) } := by
  simp only [calculate_investment_metrics] at h
  split at h
  · exact absurd h (by simp)
  · rcases hmp : monthlyMortgagePayment
        (resolvedPurchasePrice pd - resolvedPurchasePrice pd * (dp / 100))
        (rate / 100 / 12) (term * 12) with e | q
    · rw [hmp] at h
      exact absurd h (by simp [Except.bind])
    · rw [hmp] at h
      simp only [Except.bind] at h
      injection h with h
      exact ⟨q, rfl, h.symm⟩

/-- C9: whenever `calculate_investment_metrics` succeeds, the cash-on-cash
return is exactly 0 when the down payment is 0 (0 is a rational, never an
infinity or NaN), and equals (annual cash flow / down payment) × 100 whenever
the down payment is positive. -/
theorem cash_on_cash_return_policy (pd : PropertyData) (rental dp rate : ℚ) (term : ℤ)
    (m : InvestmentMetrics)
    (h : calculate_investment_metrics pd rental dp rate term = Except.ok m) :
    (m.down_payment = 0 → m.cash_on_cash_return = 0) ∧
    (0 < m.down_payment → m.cash_on_cash_return = (m.annual_cash_flow / m.down_payment) * 100) := by
  obtain ⟨mp, -, rfl⟩ := calculate_investment_metrics_ok pd rental dp rate term m h
  constructor
  · intro h0
    have h0' : resolvedPurchasePrice pd * (dp / 100) = 0 := h0
    simp [h0']
  · intro h0
    have h0' : resolvedPurchasePrice pd * (dp / 100) > 0 := h0
    show (if resolvedPurchasePrice pd * (dp / 100) > 0 then _ else 0) = _
    rw [if_pos h0']

/-- Witness for C9: at price 100, rent 0, down-payment percent 0, rate 0,
term 1, the computation succeeds with down payment 0 and cash-on-cash 0. -/
theorem cash_on_cash_return_policy_witness :
    calculate_investment_metrics pd100 0 0 0 1 = Except.ok mZeroDown ∧
      mZeroDown.cash_on_cash_return = 0 := by
  have hok : calculate_investment_metrics pd100 0 0 0 1 = Except.ok mZeroDown := by
    norm_num [calculate_investment_metrics, resolvedPurchasePrice, pd100,
      monthlyMortgagePayment, Except.bind, mZeroDown]
  exact ⟨hok, (cash_on_cash_return_policy pd100 0 0 0 1 mZeroDown hok).1 rfl⟩

/-- C10: every successful metrics record with a positive purchase price is
internally consistent: the total expense is the sum of its six components at
the documented rates (mortgage, 1.2 percent tax, 0.3 percent insurance,
5 percent maintenance, 8 percent vacancy, 10 percent management — the last
three computed off gross rent), the monthly cash flow is rent minus the
total (so vacancy is an expense line, not a rent discount), and the annual
cash flow is 12 times the monthly one. -/
theorem investment_metrics_consistent (pd : PropertyData) (rental dp rate : ℚ) (term : ℤ)
    (m : InvestmentMetrics) (hpp : 0 < resolvedPurchasePrice pd)
    (h : calculate_investment_metrics pd rental dp rate term = Except.ok m) :
    m.purchase_price = resolvedPurchasePrice pd ∧
    m.monthly_rental = rental ∧
    m.total_monthly_expenses = m.monthly_payment + m.property_tax_monthly +
      m.insurance_monthly + m.maintenance_monthly + m.vacancy_allowance + m.property_mgmt ∧
    m.property_tax_monthly = (m.purchase_price * (12 / 1000)) / 12 ∧
    m.insurance_monthly = (m.purchase_price * (3 / 1000)) / 12 ∧
    m.maintenance_monthly = m.monthly_rental * (5 / 100) ∧
    m.vacancy_allowance = m.monthly_rental * (8 / 100) ∧
    m.property_mgmt = m.monthly_rental * (10 / 100) ∧
    m.monthly_cash_flow = m.monthly_rental - m.total_monthly_expenses ∧
    m.annual_cash_flow = m.monthly_cash_flow * 12 := by
  obtain ⟨mp, -, rfl⟩ := calculate_investment_metrics_ok pd rental dp rate term m h
  exact ⟨rfl, rfl, rfl, rfl, rfl, rfl, rfl, rfl, rfl, rfl⟩

/-- Witness for C10: the concrete run of the C9 witness has a positive
purchase price and satisfies the consistency equations. -/
theorem investment_metrics_consistent_witness :
    0 < resolvedPurchasePrice pd100 ∧
      mZeroDown.total_monthly_expenses = mZeroDown.monthly_payment +
        mZeroDown.property_tax_monthly + mZeroDown.insurance_monthly +
        mZeroDown.maintenance_monthly + mZeroDown.vacancy_allowance +
        mZeroDown.property_mgmt ∧
      mZeroDown.monthly_cash_flow = mZeroDown.monthly_rental -
        mZeroDown.total_monthly_expenses ∧
      mZeroDown.annual_cash_flow = mZeroDown.monthly_cash_flow * 12 := by
  have hpp : 0 < resolvedPurchasePrice pd100 := by
    norm_num [resolvedPurchasePrice, pd100]
  have hok : calculate_investment_metrics pd100 0 0 0 1 = Except.ok mZeroDown := by
    norm_num [calculate_investment_metrics, resolvedPurchasePrice, pd100,
      monthlyMortgagePayment, Except.bind, mZeroDown]
  obtain ⟨-, -, h3, -, -, -, -, -, h9, h10⟩ :=
    investment_metrics_consistent pd100 0 0 0 1 mZeroDown hpp hok
  exact ⟨hpp, h3, h9, h10⟩

/-- C7: for every valid loan input (positive resolved price, positive term,
down-payment percent in [0,100]) with annual interest rate 0, the computation
takes the straight-line branch and the monthly payment is exactly the loan
amount divided by the number of monthly payments (term × 12). -/
theorem zero_rate_straight_line (pd : PropertyData) (rental dp : ℚ) (term : ℤ)
    (hpp : 0 < resolvedPurchasePrice pd) (hterm : 0 < term)
    (hdp0 : 0 ≤ dp) (hdp1 : dp ≤ 100) :
    ∃ m, calculate_investment_metrics pd rental dp 0 term = Except.ok m ∧
      m.monthly_payment = m.loan_amount / ((term * 12 : ℤ) : ℚ) := by
  have hne : resolvedPurchasePrice pd ≠ 0 := ne_of_gt hpp
  have hn : (term * 12 : ℤ) ≠ 0 := by omega
  have hr : (0 : ℚ) / 100 / 12 = 0 := by norm_num
  simp only [calculate_investment_metrics, if_neg hne, hr,
    monthlyMortgagePayment_zero_rate _ _ hn, Except.bind]
  exact ⟨_, rfl, rfl⟩

/-- Witness for C7: price 100000, rent 1000, 20 percent down, term 30,
rate 0 — the payment is the straight-line 80000/360. -/
theorem zero_rate_straight_line_witness :
    0 < resolvedPurchasePrice pd100k ∧ (0 : ℤ) < 30 ∧ (0 : ℚ) ≤ 20 ∧ (20 : ℚ) ≤ 100 ∧
      ∃ m, calculate_investment_metrics pd100k 1000 20 0 30 = Except.ok m ∧
        m.monthly_payment = m.loan_amount / ((30 * 12 : ℤ) : ℚ) :=
  ⟨by norm_num [resolvedPurchasePrice, pd100k], by norm_num, by norm_num, by norm_num,
    zero_rate_straight_line pd100k 1000 20 30
      (by norm_num [resolvedPurchasePrice, pd100k]) (by norm_num) (by norm_num) (by norm_num)⟩

/-- The location sub-score lies in [5, 9]. -/
theorem locationLiquidityScore_bounds (comps : List PropertyData) :
    5 ≤ locationLiquidityScore comps ∧ locationLiquidityScore comps ≤ 9 := by
  rw [locationLiquidityScore]
  split_ifs <;> norm_num

/-- The age sub-score lies in [4, 9]. -/
theorem propertyAgeScore_bounds (pd : PropertyData) (y : ℤ) :
    4 ≤ propertyAgeScore pd y ∧ propertyAgeScore pd y ≤ 9 := by
  rw [propertyAgeScore]
  rcases pd.yearBuilt with _ | yb
  · norm_num
  · simp only
    split_ifs <;> norm_num

/-- The size sub-score lies in [5, 8]. -/
theorem propertySizeScore_bounds (pd : PropertyData) :
    5 ≤ propertySizeScore pd ∧ propertySizeScore pd ≤ 8 := by
  rw [propertySizeScore]
  split_ifs <;> norm_num

/-- The price-competitiveness sub-score lies in [5, 9]. -/
theorem priceCompetitivenessScore_bounds (pd : PropertyData) (comps : List PropertyData) :
    5 ≤ priceCompetitivenessScore pd comps ∧ priceCompetitivenessScore pd comps ≤ 9 := by
  simp only [priceCompetitivenessScore]
  split_ifs <;> norm_num

/-- The condition sub-score lies in [6, 8]. -/
theorem propertyConditionScore_bounds (pd : PropertyData) :
    6 ≤ propertyConditionScore pd ∧ propertyConditionScore pd ≤ 8 := by
  rw [propertyConditionScore]
  split_ifs <;> norm_num

/-- C8: for every property record, comparable set and current year, the total
property score lies between 5 times the minimum attainable sub-score (5 × 4 =
20) and 5 times the maximum attainable sub-score (5 × 9 = 45). -/
theorem property_score_total_bounds (pd : PropertyData) (comps : List PropertyData) (y : ℤ) :
    20 ≤ totalScore (calculate_property_score pd comps y) ∧
      totalScore (calculate_property_score pd comps y) ≤ 45 := by
  obtain ⟨l1, l2⟩ := locationLiquidityScore_bounds comps
  obtain ⟨a1, a2⟩ := propertyAgeScore_bounds pd y
  obtain ⟨s1, s2⟩ := propertySizeScore_bounds pd
  obtain ⟨p1, p2⟩ := priceCompetitivenessScore_bounds pd comps
  obtain ⟨c1, c2⟩ := propertyConditionScore_bounds pd
  rw [calculate_property_score, totalScore]
  constructor <;> simp only <;> linarith

/-- C6: on an empty comparable set, or one in which every comparable lacks a
sale price or a sale date, `analyze_neighborhood_trends` yields an explicit
error result (the no-comparables or no-price-data error), never a
zero-valued statistics record. -/
theorem neighborhood_trends_insufficient_data (comps : List PropertyData)
    (h : comps = [] ∨ ∀ p ∈ comps, p.lastSalePrice = none ∨ p.lastSaleDate = none) :
    ∃ e, analyze_neighborhood_trends comps = Except.error e := by
  by_cases hc : comps = []
  · exact ⟨TrendsError.noComparables, by rw [analyze_neighborhood_trends, if_pos hc]⟩
  · rcases h with h | h
    · exact absurd h hc
    · have hp : trendPrices comps = [] := by
        rw [trendPrices, List.filterMap_eq_nil_iff]
        intro p hpmem
        rcases h p hpmem with h1 | h1
        · simp [h1]
        · rcases hps : p.lastSalePrice with _ | q <;> simp [h1, hps]
      refine ⟨TrendsError.noPriceData, ?_⟩
      rw [analyze_neighborhood_trends, if_neg hc]
      simp [hp]

/-- Witness for C6: a one-element comparable set with no sale price yields an
error result. -/
theorem neighborhood_trends_insufficient_data_witness :
    (∀ p ∈ [compNoData], p.lastSalePrice = none ∨ p.lastSaleDate = none) ∧
      ∃ e, analyze_neighborhood_trends [compNoData] = Except.error e := by
  have hall : ∀ p ∈ [compNoData], p.lastSalePrice = none ∨ p.lastSaleDate = none := by
    intro p hp
    simp only [List.mem_singleton] at hp
    subst hp
    exact Or.inl rfl
  exact ⟨hall, neighborhood_trends_insufficient_data [compNoData] (Or.inr hall)⟩

/-- C5: two historical-price sequences that each contain at least two valid
points and agree on their chronologically first and last valid (date, price)
points produce identical forecasts for every horizon — the annual rate and
the whole per-year forecast list included — regardless of interior points. -/
theorem forecast_depends_only_on_endpoints (A B : List PricePoint) (years_ahead : ℕ)
    (hA : 2 ≤ (validPricePoints A).length) (hB : 2 ≤ (validPricePoints B).length)
    (hfirst : (sortByDate (validPricePoints A)).headD (0, 0) =
      (sortByDate (validPricePoints B)).headD (0, 0))
    (hlast : (sortByDate (validPricePoints A)).getLastD (0, 0) =
      (sortByDate (validPricePoints B)).getLastD (0, 0)) :
    calculate_appreciation_forecast A years_ahead =
      calculate_appreciation_forecast B years_ahead := by
  have hA' : (validPricePoints A).length ≤ A.length := by
    rw [validPricePoints]
    exact List.length_filterMap_le _ _
  have hB' : (validPricePoints B).length ≤ B.length := by
    rw [validPricePoints]
    exact List.length_filterMap_le _ _
  rw [calculate_appreciation_forecast, calculate_appreciation_forecast,
    if_neg (by omega), if_neg (by omega), if_neg (by omega), if_neg (by omega),
    hfirst, hlast]

/-- Witness for C5: the three-point and two-point histories above share their
first and last valid points, and their five-year forecasts coincide. -/
theorem forecast_depends_only_on_endpoints_witness :
    2 ≤ (validPricePoints historyThree).length ∧
      2 ≤ (validPricePoints historyTwo).length ∧
      (sortByDate (validPricePoints historyThree)).headD (0, 0) =
        (sortByDate (validPricePoints historyTwo)).headD (0, 0) ∧
      (sortByDate (validPricePoints historyThree)).getLastD (0, 0) =
        (sortByDate (validPricePoints historyTwo)).getLastD (0, 0) ∧
      calculate_appreciation_forecast historyThree 5 =
        calculate_appreciation_forecast historyTwo 5 :=
  ⟨by decide, by decide, by decide, by decide,
    forecast_depends_only_on_endpoints historyThree historyTwo 5
      (by decide) (by decide) (by decide) (by decide)⟩

/-- Counterexample for C4: equal inputs, different ambient clock years —
`calculate_property_score` reads `datetime.now().year`, so a run in 2026 and
a run in 2060 on the same property disagree (age sub-score 9 vs 6). -/
theorem property_score_clock_dependent :
    calculate_property_score pdBuilt2020 [] 2026 ≠ calculate_property_score pdBuilt2020 [] 2060 := by
  decide

/-- C4 (amended): the score is deterministic given the inputs together with
the current clock year, and only the property-age sub-score reads the clock:
the other four sub-scores agree across years, and a record with no
`yearBuilt` scores identically in every year. -/
theorem property_score_deterministic_given_year (pd : PropertyData)
    (comps : List PropertyData) (y1 y2 : ℤ) :
    ((calculate_property_score pd comps y1).location_liquidity =
        (calculate_property_score pd comps y2).location_liquidity ∧
      (calculate_property_score pd comps y1).property_size =
        (calculate_property_score pd comps y2).property_size ∧
      (calculate_property_score pd comps y1).price_competitiveness =
        (calculate_property_score pd comps y2).price_competitiveness ∧
      (calculate_property_score pd comps y1).property_condition =
        (calculate_property_score pd comps y2).property_condition) ∧
    (pd.yearBuilt = none →
      calculate_property_score pd comps y1 = calculate_property_score pd comps y2) := by
  refine ⟨⟨rfl, rfl, rfl, rfl⟩, fun h => ?_⟩
  simp [calculate_property_score, propertyAgeScore, h]

/-- Witness for the amended C4: a record with no `yearBuilt` scores the same
in 2026 and 2060. -/
theorem property_score_deterministic_given_year_witness :
    pdEmpty.yearBuilt = none ∧
      calculate_property_score pdEmpty [] 2026 = calculate_property_score pdEmpty [] 2060 :=
  ⟨rfl, (property_score_deterministic_given_year pdEmpty [] 2026 2060).2 rfl⟩

/-- Counterexample for C3: a down-payment percent of 150 is outside [0,100],
yet the computation returns a numeric result (price 100000, rate 0, term 30),
not a typed failure. -/
theorem metrics_accepts_out_of_range_down_payment :
    ((150 : ℚ) < 0 ∨ 100 < (150 : ℚ)) ∧
      exceptIsOk (calculate_investment_metrics pd100k 1000 150 0 30) = true := by
  refine ⟨Or.inr (by norm_num), ?_⟩
  norm_num [calculate_investment_metrics, resolvedPurchasePrice, pd100k,
    monthlyMortgagePayment, Except.bind, exceptIsOk]

/-- A `monthlyMortgagePayment` call fails exactly when the payment count is
zero (the only way either denominator of the source can vanish). -/
theorem monthlyMortgagePayment_error_iff (loan_amount monthly_rate : ℚ) (n : ℤ) :
    (∃ e, monthlyMortgagePayment loan_amount monthly_rate n = Except.error e) ↔ n = 0 := by
  rw [monthlyMortgagePayment]
  split_ifs with h1 h2 h3
  · have hb : (0 : ℚ) < 1 + monthly_rate := by linarith
    have hne : (1 : ℚ) + monthly_rate ≠ 1 := by
      intro hcontra
      nlinarith
    have hpow : (1 + monthly_rate) ^ n = (1 + monthly_rate) ^ (0 : ℤ) := by
      rw [zpow_zero]
      linarith
    have hn : n = 0 := zpow_right_injective₀ hb hne hpow
    simp [hn]
  · have hn : n ≠ 0 := by
      intro h0
      exact h2 (by rw [h0, zpow_zero]; ring)
    simp [hn]
  · simp [h3]
  · simp [h3]

/-- C3 (amended): the metric computation yields an error exactly when the
resolved purchase price is 0 (the no-purchase-price dict) or the loan term is
0 (a raised ZeroDivisionError); the down-payment percent is never validated,
and negative prices or terms produce numeric results. -/
theorem metrics_error_iff (pd : PropertyData) (rental dp rate : ℚ) (term : ℤ) :
    (∃ e, calculate_investment_metrics pd rental dp rate term = Except.error e) ↔
      resolvedPurchasePrice pd = 0 ∨ term = 0 := by
  by_cases hp : resolvedPurchasePrice pd = 0
  · simp [calculate_investment_metrics, hp]
  · simp only [calculate_investment_metrics, if_neg hp]
    rcases hmp : monthlyMortgagePayment
        (resolvedPurchasePrice pd - resolvedPurchasePrice pd * (dp / 100))
        (rate / 100 / 12) (term * 12) with e | q
    · have h0 : term * 12 = 0 := (monthlyMortgagePayment_error_iff _ _ _).mp ⟨e, hmp⟩
      have ht : term = 0 := by omega
      simp [Except.bind, hp, ht]
    · have hne : term ≠ 0 := by
        intro h0
        obtain ⟨e, he⟩ := (monthlyMortgagePayment_error_iff
          (resolvedPurchasePrice pd - resolvedPurchasePrice pd * (dp / 100))
          (rate / 100 / 12) (term * 12)).mpr (by omega)
        rw [hmp] at he
        exact Except.noConfusion he
      simp [Except.bind, hp, hne]

/-- Counterexample for C2: on purchase price 300000, 20 percent down, rate 7,
term 30, the monthly payment the computation produces is more than 399 below
the 1996.06 the claim states (it is the payment on the 240000 loan, not on
the full price). -/
theorem monthly_payment_scenario_not_1996 :
    (199606 / 100 : ℚ) - metricsMonthlyPayment (calculate_investment_metrics pd300k 2000 20 7 30) >
      399 := by
  norm_num [calculate_investment_metrics, resolvedPurchasePrice, pd300k,
    monthlyMortgagePayment, Except.bind, metricsMonthlyPayment]

/-- C2 (amended): on the stated scenario the computed monthly payment lies
strictly between 1596.72 and 1596.73 — approximately 1596.73, the amortized
payment on the 240000 loan left after the 60000 down payment. -/
theorem monthly_payment_scenario_value :
    159672 / 100 < metricsMonthlyPayment (calculate_investment_metrics pd300k 2000 20 7 30) ∧
      metricsMonthlyPayment (calculate_investment_metrics pd300k 2000 20 7 30) <
        159673 / 100 := by
  constructor <;>
    norm_num [calculate_investment_metrics, resolvedPurchasePrice, pd300k,
      monthlyMortgagePayment, Except.bind, metricsMonthlyPayment]

/-- Counterexample for C1: at price 100000 and rent 1000 the computation
returns cap rate 12 — the gross-rent figure — while the cap rate the claim
prescribes, (annual NOI / price) × 100 with the same expense lines, is
7.74. -/
theorem cap_rate_scenario_not_noi :
    metricsCapRate (calculate_investment_metrics pd100k 1000 20 0 30) = 12 ∧
      spec_cap_rate 100000 1000 = 774 / 100 ∧ (12 : ℚ) ≠ 774 / 100 := by
  refine ⟨?_, by norm_num [spec_cap_rate], by norm_num⟩
  norm_num [calculate_investment_metrics, resolvedPurchasePrice, pd100k,
    monthlyMortgagePayment, Except.bind, metricsCapRate]

/-- C1 (amended): the cap rate of `calculate_investment_metrics` (src/App.py)
is (annual gross rent / purchase price) × 100, with no operating expenses
subtracted; only the src/3App.py calculator computes the NOI-based cap rate,
(12 × (effective rent − operating expenses) / price) × 100, which excludes
the mortgage payment. -/
theorem cap_rate_formulas :
    (∀ pd rental dp rate term m,
      calculate_investment_metrics pd rental dp rate term = Except.ok m →
        m.cap_rate = ((rental * 12) / resolvedPurchasePrice pd) * 100) ∧
    (∀ price dpp ir lt rent vac ex r,
      display_investment_calculator price dpp ir lt rent vac ex = Except.ok r →
        r.cap_rate = (((rent * (1 - vac / 100) - ex) * 12) / price) * 100) := by
  constructor
  · intro pd rental dp rate term m h
    obtain ⟨mp, -, rfl⟩ := calculate_investment_metrics_ok pd rental dp rate term m h
    rfl
  · intro price dpp ir lt rent vac ex r h
    simp only [display_investment_calculator] at h
    rcases hmp : monthlyMortgagePayment (price - price * (dpp / 100)) (ir / 100 / 12)
        (lt * 12) with e | q
    · rw [hmp] at h
      exact absurd h (by simp [Except.bind])
    · rw [hmp] at h
      simp only [Except.bind] at h
      split at h
      · exact absurd h (by simp)
      · injection h with h
        rw [← h]
        show ((rent * (1 - vac / 100) - (q + ex)) * 12 + q * 12) / price * 100 = _
        rw [show (rent * (1 - vac / 100) - (q + ex)) * 12 + q * 12 =
          (rent * (1 - vac / 100) - ex) * 12 from by ring]

/-- Witness for the amended C1: concrete runs of both calculators, with the
gross-rent cap rate on the first and the NOI-based cap rate on the second. -/
theorem cap_rate_formulas_witness :
    calculate_investment_metrics pd100k 1000 20 0 30 = Except.ok mGross ∧
      mGross.cap_rate = ((1000 * 12) / resolvedPurchasePrice pd100k) * 100 ∧
      display_investment_calculator 100000 20 0 30 1000 10 200 = Except.ok cNoi ∧
      cNoi.cap_rate = (((1000 * (1 - 10 / 100) - 200) * 12) / 100000) * 100 := by
  have h1 : calculate_investment_metrics pd100k 1000 20 0 30 = Except.ok mGross := by
    norm_num [calculate_investment_metrics, resolvedPurchasePrice, pd100k,
      monthlyMortgagePayment, Except.bind, mGross]
  have h2 : display_investment_calculator 100000 20 0 30 1000 10 200 = Except.ok cNoi := by
    norm_num [display_investment_calculator, monthlyMortgagePayment, Except.bind, cNoi]
  exact ⟨h1, cap_rate_formulas.1 _ _ _ _ _ _ h1, h2, cap_rate_formulas.2 _ _ _ _ _ _ _ _ h2⟩

end Notsoup
